import Mathlib

/-!
Shallow embedding of the two comment-scraper pipelines
(`instagram_scraper.py`, platform A, and `tiktok_scraper.py`, platform B)
and proofs about the claims of the specification.

Modelling conventions:
* Network calls are oracles passed in as functions; a fetch that raises a
  transport error is modelled as `Option`/`Except` failure, matching how the
  source reacts to `requests` exceptions.
* `while` loops and the generator recursion are given an explicit fuel
  argument; the fuel-exhaustion branch is a modelling artifact and every
  concrete evaluation below uses ample fuel.
* Strings stand for the opaque ids, cursors and text fields; timestamps are
  `Nat`.  CSV field values are already strings (the source writes scalar
  values whose rendering is not at issue in any claim).
-/

/- ================================================================
   CSV sink (`csv.DictWriter` with default dialect) — shared model
   ================================================================ -/

/-- One accumulated record: an insertion-ordered association list, the model
of a Python `dict` from field name to (stringified) value. -/
abbrev Record := List (String × String)

/-- Keys of a record in insertion order (`dict.keys()`). -/
def recordKeys (r : Record) : List String := r.map Prod.fst

/-- Quote test of the default csv dialect (QUOTE_MINIMAL): a field is quoted
iff it contains the delimiter, the quote char, or a line-terminator char. -/
def needsQuoting (s : String) : Bool :=
  s.data.any fun c => c == ',' || c == '"' || c == '\r' || c == '\n'

/-- Render one CSV field, doubling embedded quote chars when quoting. -/
def csvField (s : String) : String :=
  if needsQuoting s then "\"" ++ (s.replace "\"" "\"\"") ++ "\"" else s

/-- Render one CSV row with the default lineterminator `\r\n`. -/
def csvRow (fields : List String) : String :=
  String.intercalate "," (fields.map csvField) ++ "\r\n"

/-- Lookup with `DictWriter`'s default `restval` of the empty string:
`rowdict.get(key, restval)`. -/
def dictGet (r : Record) (k : String) : String :=
  match r.find? (fun p => p.1 == k) with
  | some p => p.2
  | none => ""

/-- Union of all keys over all records, duplicates removed (the Python
`set`-union step of `instagram_scraper.main`). -/
def allKeys (records : List Record) : List String :=
  (records.flatMap recordKeys).dedup

/-- Lexicographic comparison of char lists by code point — how Python
compares strings. -/
def charListLe : List Char → List Char → Bool
  | [], _ => true
  | _ :: _, [] => false
  | c :: cs, d :: ds =>
    if c.toNat < d.toNat then true
    else if d.toNat < c.toNat then false
    else charListLe cs ds

/-- Lexicographic string comparison by code point. -/
def strLe (a b : String) : Bool := charListLe a.data b.data

/-- `strLe` is total, so sorting with it is meaningful. -/
instance strLeTotal : IsTotal String (fun a b => strLe a b = true) where
  total a b := by
    show charListLe a.data b.data = true ∨ charListLe b.data a.data = true
    generalize a.data = l
    generalize b.data = m
    induction l generalizing m with
    | nil => exact Or.inl rfl
    | cons x xs ih =>
      cases m with
      | nil => exact Or.inr rfl
      | cons y ys =>
        by_cases h1 : x.toNat < y.toNat
        · exact Or.inl (by rw [charListLe, if_pos h1])
        · by_cases h2 : y.toNat < x.toNat
          · exact Or.inr (by rw [charListLe, if_pos h2])
          · rcases ih ys with h | h
            · exact Or.inl (by rw [charListLe, if_neg h1, if_neg h2]; exact h)
            · exact Or.inr (by rw [charListLe, if_neg h2, if_neg h1]; exact h)

/-- `strLe` is transitive, so sorting with it is meaningful. -/
instance strLeTrans : IsTrans String (fun a b => strLe a b = true) where
  trans a b c hab hbc := by
    show charListLe a.data c.data = true
    rw [strLe] at hab hbc
    generalize ha : a.data = l at hab
    generalize hb : b.data = m at hab hbc
    generalize hc : c.data = n at hbc
    clear ha hb hc
    induction l generalizing m n with
    | nil => rfl
    | cons x xs ih =>
      cases m with
      | nil => rw [charListLe] at hab; exact absurd hab (by simp)
      | cons y ys =>
        cases n with
        | nil => rw [charListLe] at hbc; exact absurd hbc (by simp)
        | cons z zs =>
          rw [charListLe] at hab hbc ⊢
          have hyx : ¬ y.toNat < x.toNat := fun h => by
            rw [if_neg (Nat.lt_asymm h), if_pos h] at hab
            exact Bool.false_ne_true hab
          have hzy : ¬ z.toNat < y.toNat := fun h => by
            rw [if_neg (Nat.lt_asymm h), if_pos h] at hbc
            exact Bool.false_ne_true hbc
          by_cases hxz : x.toNat < z.toNat
          · rw [if_pos hxz]
          · have hzx : ¬ z.toNat < x.toNat := by omega
            rw [if_neg hxz, if_neg hzx]
            have e1 : ¬ x.toNat < y.toNat := by omega
            have e2 : ¬ y.toNat < z.toNat := by omega
            rw [if_neg e1, if_neg hyx] at hab
            rw [if_neg e2, if_neg hzy] at hbc
            exact ih ys hab zs hbc

/-- Platform A header: `sorted(list(all_keys))` — the lexicographically
sorted union of every key present in any record.  (`sorted` on distinct
strings has a unique result, so any correct sort models it.) -/
def igFieldnames (records : List Record) : List String :=
  List.insertionSort (fun a b => strLe a b = true) (allKeys records)

/-- Platform A CSV content: header row then one row per record in order,
absent fields rendered as empty cells. -/
def igCsv (records : List Record) : String :=
  let fns := igFieldnames records
  csvRow fns ++ String.join (records.map fun r => csvRow (fns.map (dictGet r)))

/-- Platform B header: `all_comments_data[0].keys()` — the first record's
keys in insertion order (empty when there are no records). -/
def tkFieldnames (records : List Record) : List String :=
  recordKeys (records.headD [])

/-- Platform B CSV write: `DictWriter` with `extrasaction` left at `raise`
raises `ValueError` when some record holds a key outside the fieldnames. -/
def tkCsv (records : List Record) : Except String String :=
  let fns := tkFieldnames records
  if records.all (fun r => (recordKeys r).all (fun k => fns.contains k)) then
    .ok (csvRow fns ++ String.join (records.map fun r => csvRow (fns.map (dictGet r))))
  else
    .error "ValueError: dict contains fields not in fieldnames"

/-- Platform A sink call: the destination path together with the content
written there.  The path influences only where the bytes go. -/
def igWriteCsv (path : String) (records : List Record) : String × String :=
  (path, igCsv records)

/-- Platform B sink call, analogous to `igWriteCsv`. -/
def tkWriteCsv (path : String) (records : List Record) : String × Except String String :=
  (path, tkCsv records)

/- ================================================================
   ID source — `read_post_ids_from_csv` / `read_ids_from_csv`
   ================================================================ -/

/-- Body of the row loop shared verbatim by the two readers: keep the
trimmed first cell of every row whose first cell exists and trims
non-empty.  (Python `str.strip` is modelled by `String.trim`.) -/
def readIdsLoop : List (List String) → List String
  | [] => []
  | row :: rest =>
    match row with
    | [] => readIdsLoop rest
    | c :: _ => if c.trim = "" then readIdsLoop rest else c.trim :: readIdsLoop rest

/-- Platform A id source.  The file is `none` when it does not exist
(`FileNotFoundError` → log, return `[]`); otherwise it is the parsed list
of rows.  `next(reader, None)` drops the first row unconditionally. -/
def read_post_ids_from_csv (file : Option (List (List String))) : List String :=
  match file with
  | none => []
  | some rows => readIdsLoop (rows.drop 1)

/-- Platform B id source; its body is line-for-line identical to
`read_post_ids_from_csv` in the source. -/
def read_ids_from_csv (file : Option (List (List String))) : List String :=
  match file with
  | none => []
  | some rows => readIdsLoop (rows.drop 1)

/-- Spec-side formulation of the id-source contract, written from the
spec's words for comparison with the source-derived readers: ordered
trimmed first-column values of all rows after the first, excluding rows
whose first cell is absent or trims empty. -/
def idSourceSpec (rows : List (List String)) : List String :=
  (rows.drop 1).filterMap fun row =>
    match row.head? with
    | none => none
    | some c => if c.trim = "" then none else some c.trim

/- ================================================================
   Platform A credentials (`instagram_scraper.main`, lines 181-186)
   ================================================================ -/

/-- Literal constant from `main` (line 181). -/
def sessionid : String :=
  "8900711295%3ACOeDeSGecWNZLK%3A9%3AAYf0g_IpxxhTmgjuUWX7Ne8gVjqUAi3KJJRehaD04Q"

/-- Literal constant from `main` (line 182). -/
def ds_user_id : String := "8900711295"

/-- Literal constant from `main` (line 183). -/
def csrftoken : String := "E5VPI5indmbps5COiHI7DI2LeH7vLA40"

/-- Literal constant from `main` (line 184). -/
def mid : String := "aHSP6wALAAEGbmMHO65q6keKTGUT"

/-- The composed cookie string of `main` (line 186). -/
def cookies_str : String :=
  "sessionid=" ++ sessionid ++ "; ds_user_id=" ++ ds_user_id ++
    "; csrftoken=" ++ csrftoken ++ "; mid=" ++ mid ++ ";"

/-- The credential string `main` uses, as a function of the invocation
arguments.  `main()` takes no parameters, so the result ignores `argv`. -/
def igMainCookies (_argv : List String) : String := cookies_str

/- ================================================================
   Platform A — GraphQL pages and the two cursor walkers
   `fetch_replies` (lines 65-111) and `fetch_comments` (lines 113-175)
   ================================================================ -/

/-- A reply node as consumed by `fetch_replies`: the fields it reads from
`edge.node`. -/
structure IgReplyNode where
  id : String
  username : String
  text : String
  created_at : Nat
deriving DecidableEq

/-- A parent-comment node as consumed by `fetch_comments`; additionally
carries `edge_threaded_comments.count`. -/
structure IgParentNode where
  id : String
  username : String
  text : String
  created_at : Nat
  child_comment_count : Nat
deriving DecidableEq

/-- One successfully extracted replies page (`edge_threaded_comments`):
its edges' nodes, `page_info.has_next_page` and `page_info.end_cursor`. -/
structure IgReplyPage where
  nodes : List IgReplyNode
  has_next_page : Bool
  end_cursor : String
deriving DecidableEq

/-- One successfully extracted parent page (`edge_media_to_parent_comment`). -/
structure IgParentPage where
  nodes : List IgParentNode
  has_next_page : Bool
  end_cursor : String
deriving DecidableEq

/-- One flattened output row of platform A (the dicts appended to
`all_comments` / `all_replies`).  All seven keys are always present. -/
structure IgRecord where
  post_id : String
  parent_comment_id : String
  comment_id : String
  username : String
  comment_text : String
  created_at : Nat
  is_reply : Bool
deriving DecidableEq

/-- The reply dict appended at lines 91-99. -/
def igReplyRecord (shortcode cid : String) (n : IgReplyNode) : IgRecord :=
  { post_id := shortcode
    parent_comment_id := cid
    comment_id := n.id
    username := n.username
    comment_text := n.text
    created_at := n.created_at
    is_reply := true }

/-- The parent dict appended at lines 146-154: `comment_id` and
`parent_comment_id` are both the node's own id. -/
def igParentRecord (shortcode : String) (n : IgParentNode) : IgRecord :=
  { post_id := shortcode
    parent_comment_id := n.id
    comment_id := n.id
    username := n.username
    comment_text := n.text
    created_at := n.created_at
    is_reply := false }

/-- Result of a reply walk: the emitted records and the log of fetches
issued, each as (comment_id passed in the variables, cursor). -/
structure IgReplyWalkResult where
  records : List IgRecord
  fetches : List (String × String)
deriving DecidableEq

/-- The `while has_next` loop of `fetch_replies`.  The oracle `rapi` maps
(comment_id, cursor) to the extracted `edge_threaded_comments` container;
`none` covers both a failed `graphql_request` (which returns `{}`) and an
absent/empty container — either way the loop breaks, keeping what was
already collected. -/
def fetchRepliesGo (rapi : String → String → Option IgReplyPage)
    (shortcode cid : String) : Nat → String → IgReplyWalkResult
  | 0, _ => ⟨[], []⟩
  | fuel + 1, cursor =>
    match rapi cid cursor with
    | none => ⟨[], [(cid, cursor)]⟩
    | some p =>
      let recs := p.nodes.map (igReplyRecord shortcode cid)
      if p.has_next_page then
        let rest := fetchRepliesGo rapi shortcode cid fuel p.end_cursor
        ⟨recs ++ rest.records, (cid, cursor) :: rest.fetches⟩
      else ⟨recs, [(cid, cursor)]⟩

/-- `fetch_replies(shortcode, comment_id, headers)`: walk starting from the
empty cursor. -/
def fetch_replies (rapi : String → String → Option IgReplyPage)
    (shortcode cid : String) (fuel : Nat) : IgReplyWalkResult :=
  fetchRepliesGo rapi shortcode cid fuel ""

/-- Records emitted for a single parent node (lines 142-161): the parent
record, then — when the nested-reply count is nonzero — every record of
one reply walk for that node's id. -/
def igEmitNode (rapi : String → String → Option IgReplyPage)
    (shortcode : String) (rfuel : Nat) (n : IgParentNode) : List IgRecord :=
  igParentRecord shortcode n ::
    (if 0 < n.child_comment_count then
      (fetch_replies rapi shortcode n.id rfuel).records
    else [])

/-- Result of a parent walk: emitted records, the parent-page cursors
fetched (in order), and the comment ids for which a reply walk was
invoked (in order). -/
structure IgWalkResult where
  records : List IgRecord
  fetched_cursors : List String
  reply_walks : List String
deriving DecidableEq

/-- The `while has_next` loop of `fetch_comments`.  The oracle `papi` maps
(shortcode, cursor) to the extracted `edge_media_to_parent_comment`
container; `none` covers a failed request, a response without
`shortcode_media`, and an absent/empty container — all of which break the
loop, keeping what was already collected. -/
def fetchCommentsGo (papi : String → String → Option IgParentPage)
    (rapi : String → String → Option IgReplyPage)
    (shortcode : String) (rfuel : Nat) : Nat → String → IgWalkResult
  | 0, _ => ⟨[], [], []⟩
  | fuel + 1, cursor =>
    match papi shortcode cursor with
    | none => ⟨[], [cursor], []⟩
    | some p =>
      let recs := p.nodes.flatMap (igEmitNode rapi shortcode rfuel)
      let calls := (p.nodes.filter fun n => 0 < n.child_comment_count).map (·.id)
      if p.has_next_page then
        let rest := fetchCommentsGo papi rapi shortcode rfuel fuel p.end_cursor
        ⟨recs ++ rest.records, cursor :: rest.fetched_cursors,
          calls ++ rest.reply_walks⟩
      else ⟨recs, [cursor], calls⟩

/-- `fetch_comments(shortcode, headers)`: walk starting from the empty
cursor. -/
def fetch_comments (papi : String → String → Option IgParentPage)
    (rapi : String → String → Option IgReplyPage)
    (shortcode : String) (pfuel rfuel : Nat) : IgWalkResult :=
  fetchCommentsGo papi rapi shortcode rfuel pfuel ""

/-- The accumulation loop of platform A's `main` (lines 197-201): records
of every id's walk, concatenated in id order. -/
def igMainRecords (papi : String → String → Option IgParentPage)
    (rapi : String → String → Option IgReplyPage)
    (pfuel rfuel : Nat) (ids : List String) : List IgRecord :=
  ids.flatMap fun id => (fetch_comments papi rapi id pfuel rfuel).records

/-- The parent nodes of the page sequence reachable from a cursor —
the page traversal of `fetch_comments` separated from record emission,
used to state what the walker emits. -/
def igPagesNodes (papi : String → String → Option IgParentPage)
    (shortcode : String) : Nat → String → List IgParentNode
  | 0, _ => []
  | fuel + 1, cursor =>
    match papi shortcode cursor with
    | none => []
    | some p =>
      p.nodes ++
        (if p.has_next_page then igPagesNodes papi shortcode fuel p.end_cursor
         else [])

/- ================================================================
   Process outcome of the two `main` functions
   ================================================================ -/

/-- How a run ends: `sys.exit` with a nonzero code, a plain return with no
file written, or a successful write to a path. -/
inductive ExitOutcome
  | errorExit (code : Nat)
  | cleanReturn
  | wroteFile (path : String)
deriving DecidableEq

/-- Control flow of platform A's `main` (lines 189-230): zero ids →
`sys.exit(1)`; empty accumulation → warning and plain end; otherwise a
write to the fixed output path. -/
def igMainOutcome (papi : String → String → Option IgParentPage)
    (rapi : String → String → Option IgReplyPage)
    (pfuel rfuel : Nat) (ids : List String) : ExitOutcome :=
  if ids.isEmpty then .errorExit 1
  else if (igMainRecords papi rapi pfuel rfuel ids).isEmpty then .cleanReturn
  else .wroteFile "data/instagram/all_instagram_comments.csv"

/- ================================================================
   Platform B — `tiktok_scraper.py`
   ================================================================ -/

/-- Raw API comment data, holding exactly the fields `__parse_comment`'s
jmespath projection reads. -/
structure TkNode where
  cid : String
  unique_id : String
  nickname : String
  text : String
  create_time : Nat
  avatar : String
  reply_comment_total : Nat
deriving DecidableEq

/-- The `Comment` dataclass; `replies` nests further `Comment`s. -/
structure TkComment where
  comment_id : String
  username : String
  nickname : String
  comment : String
  create_time : Nat
  avatar : String
  total_reply : Nat
  replies : List TkComment

/-- The `Comment` built by `__parse_comment` from a raw node and the
already-walked replies. -/
def mkTkComment (n : TkNode) (rs : List TkComment) : TkComment :=
  { comment_id := n.cid
    username := n.unique_id
    nickname := n.nickname
    comment := n.text
    create_time := n.create_time
    avatar := n.avatar
    total_reply := n.reply_comment_total
    replies := rs }

/-- The two mutually recursive jobs of the reply machinery:
parsing a list of raw nodes (the comprehension inside `get_replies`) and
walking the reply pages of one comment id from a page number onward
(the loop of `get_all_replies`). -/
inductive TkTask
  | parseList (ns : List TkNode)
  | replyPages (cid : String) (page : Nat)

/-- Defunctionalized mutual recursion of `__parse_comment`,
`get_all_replies` and `get_replies`, structural on fuel.  The oracle
`rapi` maps (comment_id, page) to the raw `comments` list of the reply
endpoint, or to an error when the underlying request raises.  Parsing a
node with nonzero `total_reply` walks that node's own replies — this
happens for reply nodes too, since `get_replies` parses through the same
`__parse_comment`.  An error propagates (nothing in this call chain
catches it). -/
def tkWalk (rapi : String → Nat → Except Unit (List TkNode)) :
    Nat → TkTask → Except Unit (List TkComment)
  | 0, _ => .ok []
  | _ + 1, .parseList [] => .ok []
  | fuel + 1, .parseList (n :: rest) =>
    match (if n.reply_comment_total ≠ 0 then
             tkWalk rapi fuel (.replyPages n.cid 1)
           else .ok []) with
    | .error e => .error e
    | .ok rs =>
      match tkWalk rapi fuel (.parseList rest) with
      | .error e => .error e
      | .ok cs => .ok (mkTkComment n rs :: cs)
  | fuel + 1, .replyPages cid page =>
    match rapi cid page with
    | .error e => .error e
    | .ok [] => .ok []
    | .ok ns =>
      match tkWalk rapi fuel (.parseList ns) with
      | .error e => .error e
      | .ok parsed =>
        match tkWalk rapi fuel (.replyPages cid (page + 1)) with
        | .error e => .error e
        | .ok rest => .ok (parsed ++ rest)

/-- `get_all_replies(comment_id)`, materialized (`list(...)` at line 80):
walk the reply pages from page 1. -/
def tkGetAllReplies (rapi : String → Nat → Except Unit (List TkNode))
    (fuel : Nat) (cid : String) : Except Unit (List TkComment) :=
  tkWalk rapi fuel (.replyPages cid 1)

/-- One page of the comment-list endpoint as `get_comments` consumes it:
the raw `comments` array and the `has_more` flag.  (The jmespath
projection also extracts a caption and video url for the `Comments`
wrapper; `main` never reads them and they are omitted here.) -/
structure TkRawPage where
  nodes : List TkNode
  has_more : Bool
deriving DecidableEq

/-- The `Comments` value `get_comments` returns, restricted to the fields
`get_all_comments` and `main` read. -/
structure TkComments where
  comments : List TkComment
  has_more : Bool

/-- `get_comments(aweme_id, page)`: one fetch of the comment-list
endpoint, parsing every raw node through `__parse_comment`. -/
def tkGetComments (capi : Nat → Except Unit TkRawPage)
    (rapi : String → Nat → Except Unit (List TkNode))
    (rfuel : Nat) (page : Nat) : Except Unit TkComments :=
  match capi page with
  | .error e => .error e
  | .ok p =>
    match tkWalk rapi rfuel (.parseList p.nodes) with
    | .error e => .error e
    | .ok cs => .ok ⟨cs, p.has_more⟩

/-- The `while True` loop of `get_all_comments` (lines 122-127), carrying
the accumulated comments and the number of fetches issued so far: fetch
the next page; if its `has_more` is false, break — WITHOUT extending the
accumulation with that page's comments; otherwise extend and continue. -/
def tkGetAllCommentsLoop (capi : Nat → Except Unit TkRawPage)
    (rapi : String → Nat → Except Unit (List TkNode)) (rfuel : Nat) :
    Nat → Nat → List TkComment → Nat → Except Unit (List TkComment × Nat)
  | 0, _, acc, fetches => .ok (acc, fetches)
  | fuel + 1, page, acc, fetches =>
    match tkGetComments capi rapi rfuel page with
    | .error e => .error e
    | .ok c =>
      if c.has_more then
        tkGetAllCommentsLoop capi rapi rfuel fuel (page + 1)
          (acc ++ c.comments) (fetches + 1)
      else .ok (acc, fetches + 1)

/-- `get_all_comments(aweme_id)`: page 1 first, then the loop from page 2.
Returns the accumulated comments together with the total number of
comment-list fetches issued. -/
def tkGetAllComments (capi : Nat → Except Unit TkRawPage)
    (rapi : String → Nat → Except Unit (List TkNode))
    (pfuel rfuel : Nat) : Except Unit (List TkComment × Nat) :=
  match tkGetComments capi rapi rfuel 1 with
  | .error e => .error e
  | .ok first => tkGetAllCommentsLoop capi rapi rfuel pfuel 2 first.comments 1

/-- One row of platform B's accumulated output: `asdict(comment)` (the
eight dataclass fields, `replies` still a nested list) with `aweme_id`
set afterwards by `main`. -/
structure TkFlat where
  comment_id : String
  username : String
  nickname : String
  comment : String
  create_time : Nat
  avatar : String
  total_reply : Nat
  replies : List TkComment
  aweme_id : String

/-- The record `main` appends for one top-level comment (lines 214-219). -/
def tkFlatten (aweme_id : String) (c : TkComment) : TkFlat :=
  { comment_id := c.comment_id
    username := c.username
    nickname := c.nickname
    comment := c.comment
    create_time := c.create_time
    avatar := c.avatar
    total_reply := c.total_reply
    replies := c.replies
    aweme_id := aweme_id }

/-- Key set, in insertion order, of the dict `main` appends to
`all_comments_data`: the `Comment` dataclass fields in declaration order
(that is `asdict`'s order) followed by the `aweme_id` key added at
line 218. -/
def tkFlatKeys : List String :=
  ["comment_id", "username", "nickname", "comment", "create_time",
   "avatar", "total_reply", "replies", "aweme_id"]

/-- The per-id loop of platform B's `main` (lines 209-225): a raised
error for an id is caught there, logged, and that id is skipped —
whatever had been collected for it is discarded; the loop continues with
the next id. -/
def tkMainRecords (capi : String → Nat → Except Unit TkRawPage)
    (rapi : String → String → Nat → Except Unit (List TkNode))
    (pfuel rfuel : Nat) (ids : List String) : List TkFlat :=
  ids.flatMap fun id =>
    match tkGetAllComments (capi id) (rapi id) pfuel rfuel with
    | .error _ => []
    | .ok (cs, _) => cs.map (tkFlatten id)

/-- Control flow of platform B's `main` (lines 200-245): zero ids → plain
return; empty accumulation → warning and plain return; otherwise a write
to the given output path. -/
def tkMainOutcome (capi : String → Nat → Except Unit TkRawPage)
    (rapi : String → String → Nat → Except Unit (List TkNode))
    (pfuel rfuel : Nat) (ids : List String) (output : String) : ExitOutcome :=
  if ids.isEmpty then .cleanReturn
  else if (tkMainRecords capi rapi pfuel rfuel ids).isEmpty then .cleanReturn
  else .wroteFile output

/- ================================================================
   Helper extractors for evaluating platform B results
   ================================================================ -/

/-- Comment ids of a parent-walk result; empty when the run errored. -/
def tkCommentIds (r : Except Unit (List TkComment × Nat)) : List String :=
  match r with
  | .error _ => []
  | .ok (cs, _) => cs.map (·.comment_id)

/-- Number of comment-list fetches of a parent-walk result. -/
def tkFetchCount (r : Except Unit (List TkComment × Nat)) : Nat :=
  match r with
  | .error _ => 0
  | .ok (_, n) => n

/-- Whether a parent-walk run ended in a propagated exception. -/
def tkRunFailed (r : Except Unit (List TkComment × Nat)) : Bool :=
  match r with
  | .error _ => true
  | .ok _ => false

/-- Ids of the nested replies attached to the first comment of a
reply-walk result. -/
def tkFirstReplyIds (r : Except Unit (List TkComment)) : List String :=
  match r with
  | .ok (c :: _) => c.replies.map (·.comment_id)
  | _ => []

/- ================================================================
   Concrete oracles for the closed evaluations
   ================================================================ -/

/-- Parent node "1", no nested replies. -/
def igN1 : IgParentNode := ⟨"1", "u1", "hello", 11, 0⟩

/-- Parent node "2", no nested replies. -/
def igN2 : IgParentNode := ⟨"2", "u2", "world", 12, 0⟩

/-- Parent node "3", no nested replies. -/
def igN3 : IgParentNode := ⟨"3", "u3", "again", 13, 0⟩

/-- Two-page parent oracle of the simulated scenario: page 1 at the empty
cursor has `has_next_page` true, cursor `c1` and two nodes; page 2 at
cursor `c1` has `has_next_page` false and one node. -/
def papiC1 : String → String → Option IgParentPage := fun _ cursor =>
  if cursor = "" then some ⟨[igN1, igN2], true, "c1"⟩
  else if cursor = "c1" then some ⟨[igN3], false, ""⟩
  else none

/-- Reply oracle that always fails / finds no container. -/
def rapiIgNone : String → String → Option IgReplyPage := fun _ _ => none

/-- Parent oracle that always fails. -/
def papiIgNone : String → String → Option IgParentPage := fun _ _ => none

/-- Single-page parent oracle whose one node declares one nested reply. -/
def papiC10 : String → String → Option IgParentPage := fun _ cursor =>
  if cursor = "" then some ⟨[⟨"p1", "u", "top", 1, 1⟩], false, ""⟩ else none

/-- Reply oracle serving one reply `r1` for comment `p1`. -/
def rapiC10 : String → String → Option IgReplyPage := fun cid cursor =>
  if cid = "p1" && cursor = "" then some ⟨[⟨"r1", "v", "sub", 2⟩], false, ""⟩
  else none

/-- First page of id `v1` in the mid-walk-failure scenario. -/
def igPageC4 : IgParentPage := ⟨[igN1], true, "c1"⟩

/-- Parent oracle for the mid-walk-failure scenario: id `v1` yields one
page announcing more, then the fetch at its cursor fails; id `v2` yields
one final page. -/
def papiC4 : String → String → Option IgParentPage := fun id cursor =>
  if id = "v1" then (if cursor = "" then some igPageC4 else none)
  else if id = "v2" then (if cursor = "" then some ⟨[igN2], false, ""⟩ else none)
  else none

/-- Raw platform B node with no nested replies. -/
def tkN (i : String) : TkNode := ⟨i, "user" ++ i, "nick", "text", 5, "av", 0⟩

/-- Two-page comment-list oracle of the simulated scenario: page 1 has
`has_more` true and two nodes; page 2 has `has_more` false and one node. -/
def capiC1 : Nat → Except Unit TkRawPage := fun page =>
  if page = 1 then .ok ⟨[tkN "t1", tkN "t2"], true⟩
  else if page = 2 then .ok ⟨[tkN "t3"], false⟩
  else .ok ⟨[], false⟩

/-- Reply oracle with no replies anywhere. -/
def rapiTkEmpty : String → Nat → Except Unit (List TkNode) := fun _ _ => .ok []

/-- Reply oracle with nested nesting: parent `p` has one reply `r1` whose
own `reply_comment_total` is nonzero, and `r1` in turn has one reply
`r2`. -/
def rapiC2 : String → Nat → Except Unit (List TkNode) := fun cid page =>
  if cid = "p" && page = 1 then .ok [⟨"r1", "ur1", "n", "t", 6, "av", 1⟩]
  else if cid = "r1" && page = 1 then .ok [tkN "r2"]
  else .ok []

/-- Comment-list oracle for id `v1`: one top-level comment `P` declaring
one reply, then a final empty page. -/
def capiC5 : Nat → Except Unit TkRawPage := fun page =>
  if page = 1 then .ok ⟨[⟨"P", "uP", "n", "t", 7, "av", 1⟩], true⟩
  else .ok ⟨[], false⟩

/-- Reply oracle serving one reply `R1` for comment `P`. -/
def rapiC5 : String → Nat → Except Unit (List TkNode) := fun cid page =>
  if cid = "P" && page = 1 then .ok [tkN "R1"] else .ok []

/-- Per-id comment-list oracle of the mid-walk-failure scenario: id `v1`
succeeds on page 1 (announcing more) and raises on page 2; id `v2`
succeeds and finishes. -/
def capiC4t : String → Nat → Except Unit TkRawPage := fun id page =>
  if id = "v1" then (if page = 1 then .ok ⟨[tkN "a1"], true⟩ else .error ())
  else if id = "v2" then
    (if page = 1 then .ok ⟨[tkN "b1"], true⟩ else .ok ⟨[], false⟩)
  else .ok ⟨[], false⟩

/-- Reply oracle family (per aweme id) with no replies anywhere. -/
def rapiTkEmptyOf : String → String → Nat → Except Unit (List TkNode) :=
  fun _ _ _ => .ok []

/-- Comment-list oracle family that always raises. -/
def capiTkErr : String → Nat → Except Unit TkRawPage := fun _ _ => .error ()

/- ================================================================
   Supporting lemmas
   ================================================================ -/

/-- The id-reader row loop equals a `filterMap` over the rows. -/
theorem readIdsLoop_eq_filterMap (l : List (List String)) :
    readIdsLoop l = l.filterMap fun row =>
      match row.head? with
      | none => none
      | some c => if c.trim = "" then none else some c.trim := by
  induction l with
  | nil => rfl
  | cons row rest ih =>
    cases row with
    | nil => simpa [readIdsLoop, List.filterMap_cons] using ih
    | cons c cs =>
      by_cases h : c.trim = "" <;>
        simp [readIdsLoop, h, ih, List.filterMap_cons]

/-- Every record a reply walk emits is a reply record carrying the walked
comment id as its parent id and the walked post id. -/
theorem fetchRepliesGo_records_shape
    (rapi : String → String → Option IgReplyPage) (shortcode cid : String)
    (fuel : Nat) : ∀ cursor : String,
    ((fetchRepliesGo rapi shortcode cid fuel cursor).records.all fun r =>
      r.is_reply && (r.parent_comment_id == cid) && (r.post_id == shortcode)) = true := by
  induction fuel with
  | zero => intro cursor; rfl
  | succ n ih =>
    intro cursor
    simp only [fetchRepliesGo]
    cases h : rapi cid cursor with
    | none => rfl
    | some p =>
      cases hn : p.has_next_page
      · simp [hn, List.all_eq_true, igReplyRecord]
      · simp [hn, List.all_append, List.all_eq_true, igReplyRecord]
        intro x hx
        simpa using List.all_eq_true.mp (ih p.end_cursor) x hx

/-- Every fetch a reply walk issues passes the walked comment id. -/
theorem fetchRepliesGo_fetches_shape
    (rapi : String → String → Option IgReplyPage) (shortcode cid : String)
    (fuel : Nat) : ∀ cursor : String,
    ((fetchRepliesGo rapi shortcode cid fuel cursor).fetches.all fun e =>
      e.1 == cid) = true := by
  induction fuel with
  | zero => intro cursor; rfl
  | succ n ih =>
    intro cursor
    simp only [fetchRepliesGo]
    cases h : rapi cid cursor with
    | none => simp
    | some p =>
      cases hn : p.has_next_page
      · simp [hn, List.all_eq_true]
      · simp [hn, List.all_eq_true]
        intro a b hab
        simpa using List.all_eq_true.mp (ih p.end_cursor) (a, b) hab

/-- The parent walk's records are exactly the per-node emissions of the
traversed page sequence, in page order. -/
theorem fetchCommentsGo_records_eq
    (papi : String → String → Option IgParentPage)
    (rapi : String → String → Option IgReplyPage)
    (shortcode : String) (rfuel : Nat) (fuel : Nat) : ∀ cursor : String,
    (fetchCommentsGo papi rapi shortcode rfuel fuel cursor).records
      = (igPagesNodes papi shortcode fuel cursor).flatMap
          (igEmitNode rapi shortcode rfuel) := by
  induction fuel with
  | zero => intro cursor; rfl
  | succ n ih =>
    intro cursor
    simp only [fetchCommentsGo, igPagesNodes]
    cases h : papi shortcode cursor with
    | none => rfl
    | some p =>
      cases hn : p.has_next_page <;> simp [hn, ih]

/-- The parent walk invokes one reply walk per traversed node with a
nonzero nested-reply count, in order. -/
theorem fetchCommentsGo_reply_walks_eq
    (papi : String → String → Option IgParentPage)
    (rapi : String → String → Option IgReplyPage)
    (shortcode : String) (rfuel : Nat) (fuel : Nat) : ∀ cursor : String,
    (fetchCommentsGo papi rapi shortcode rfuel fuel cursor).reply_walks
      = ((igPagesNodes papi shortcode fuel cursor).filter fun n =>
          0 < n.child_comment_count).map (·.id) := by
  induction fuel with
  | zero => intro cursor; rfl
  | succ n ih =>
    intro cursor
    simp only [fetchCommentsGo, igPagesNodes]
    cases h : papi shortcode cursor with
    | none => rfl
    | some p =>
      cases hn : p.has_next_page <;> simp [hn, ih, List.filter_append]

/-- Every non-reply record of a parent walk has `comment_id` equal to
`parent_comment_id`. -/
theorem ig_records_parent_self
    (papi : String → String → Option IgParentPage)
    (rapi : String → String → Option IgReplyPage)
    (shortcode : String) (pfuel rfuel : Nat) :
    ((fetch_comments papi rapi shortcode pfuel rfuel).records.all fun r =>
      r.is_reply || (r.comment_id == r.parent_comment_id)) = true := by
  show ((fetchCommentsGo papi rapi shortcode rfuel pfuel "").records.all _) = true
  rw [fetchCommentsGo_records_eq]
  rw [List.all_eq_true]
  intro r hr
  rw [List.mem_flatMap] at hr
  obtain ⟨n, _hn, hrn⟩ := hr
  rw [igEmitNode] at hrn
  rcases List.mem_cons.mp hrn with h | h
  · subst h; simp [igParentRecord]
  · by_cases hc : 0 < n.child_comment_count
    · rw [if_pos hc] at h
      rw [fetch_replies] at h
      have hall :=
        List.all_eq_true.mp (fetchRepliesGo_records_shape rapi shortcode n.id rfuel "") r h
      simp only [Bool.and_eq_true] at hall
      simp [hall.1.1]
    · rw [if_neg hc] at h
      cases h

/- ================================================================
   Claim theorems
   ================================================================ -/

/-- C1: for the simulated two-page parent response (page 1: has-more true,
cursor `c1`, 2 nodes; page 2: has-more false, 1 node), platform A's
`fetch_comments` issues exactly 2 fetches (cursors `""` then `"c1"`) and
emits exactly 3 parent records in page order — but platform B's
`get_all_comments` also issues exactly 2 fetches yet emits only the 2
records of page 1, dropping the final page's node: its loop breaks on a
page with has-more false before extending the accumulation. -/
theorem c1_two_page_walk :
    (fetch_comments papiC1 rapiIgNone "POST1" 5 5).records.map (fun r => r.comment_id)
        = ["1", "2", "3"]
    ∧ ((fetch_comments papiC1 rapiIgNone "POST1" 5 5).records.all fun r => !r.is_reply) = true
    ∧ (fetch_comments papiC1 rapiIgNone "POST1" 5 5).fetched_cursors = ["", "c1"]
    ∧ tkCommentIds (tkGetAllComments capiC1 rapiTkEmpty 5 5) = ["t1", "t2"]
    ∧ tkFetchCount (tkGetAllComments capiC1 rapiTkEmpty 5 5) = 2 :=
  ⟨rfl, rfl, rfl, rfl, rfl⟩

/-- C2 (amended): platform A's reply walker `fetch_replies` only ever
fetches the parent comment id it was invoked for — it never issues a
fetch for a reply's own replies — and every record it emits is a reply
record of that parent.  Platform B's reply machinery, by contrast, DOES
expand a reply's nonzero `total_reply` into a further recursive reply
walk (see the counterexample). -/
theorem c2_amended_reply_walker
    (rapi : String → String → Option IgReplyPage)
    (shortcode cid : String) (fuel : Nat) (cursor : String) :
    ((fetchRepliesGo rapi shortcode cid fuel cursor).fetches.all fun e => e.1 == cid) = true
    ∧ ((fetchRepliesGo rapi shortcode cid fuel cursor).records.all fun r =>
        r.is_reply && (r.parent_comment_id == cid)) = true := by
  refine ⟨fetchRepliesGo_fetches_shape rapi shortcode cid fuel cursor, ?_⟩
  have h := fetchRepliesGo_records_shape rapi shortcode cid fuel cursor
  rw [List.all_eq_true] at h ⊢
  intro r hr
  have hr2 := h r hr
  simp only [Bool.and_eq_true] at hr2 ⊢
  exact hr2.1

/-- C2 counterexample: walking parent `p`'s replies with platform B's
`get_all_replies` produces the reply `r1`, and because `r1` carries a
nonzero `total_reply` its own replies are fetched and attached (`r2`) —
a recursive expansion of a reply's reply count, contradicting the claim
that no such fetch is issued. -/
theorem c2_counterexample :
    (tkGetAllReplies rapiC2 9 "p").map (fun cs => cs.map (·.comment_id)) = .ok ["r1"]
    ∧ tkFirstReplyIds (tkGetAllReplies rapiC2 9 "p") = ["r2"] :=
  ⟨rfl, rfl⟩

/-- C3 (amended): platform A's sink writes the lexicographically sorted,
duplicate-free union of every key present in any record as the header,
rendering absent fields as empty cells — on the records
`{a:1, b:2}`, `{a:3, c:4}` the content is exactly
`a,b,c / 1,2, / 3,,4`.  Platform B's sink does NOT satisfy this
contract (see the counterexample): it uses the first record's keys. -/
theorem c3_amended_header (records : List Record) (k : String) :
    List.Sorted (fun a b => strLe a b = true) (igFieldnames records)
    ∧ (igFieldnames records).Nodup
    ∧ (k ∈ igFieldnames records ↔ ∃ r ∈ records, k ∈ recordKeys r)
    ∧ igCsv [[("a", "1"), ("b", "2")], [("a", "3"), ("c", "4")]]
        = "a,b,c\r\n1,2,\r\n3,,4\r\n" := by
  refine ⟨List.sorted_insertionSort _ _, ?_, ?_, rfl⟩
  · exact (List.perm_insertionSort _ _).nodup_iff.mpr (List.nodup_dedup _)
  · rw [igFieldnames, (List.perm_insertionSort _ _).mem_iff, allKeys,
      List.mem_dedup, List.mem_flatMap]

/-- C3 counterexample: on the records `{a:1, b:2}`, `{a:3, c:4}` platform
B's sink takes the header from the first record only (`a,b`, not the
sorted union `a,b,c`) and the write raises `ValueError` because the
second record carries the extra key `c`. -/
theorem c3_counterexample :
    tkFieldnames [[("a", "1"), ("b", "2")], [("a", "3"), ("c", "4")]] = ["a", "b"]
    ∧ tkCsv [[("a", "1"), ("b", "2")], [("a", "3"), ("c", "4")]]
        = .error "ValueError: dict contains fields not in fieldnames" :=
  ⟨rfl, rfl⟩

/-- C4 (amended): on platform A a transport error mid-walk is swallowed —
when the first page announces more pages and the fetch at its cursor
fails, the walker returns exactly the records already collected for that
id, they stay in the accumulation, and the batch continues with the
remaining ids unchanged.  (Platform B instead lets the exception escape
the walker; its per-id handler in `main` keeps the batch going but drops
the failing id's partial records — see the counterexample.) -/
theorem c4_amended_partial_preservation
    (papi : String → String → Option IgParentPage)
    (rapi : String → String → Option IgReplyPage)
    (id : String) (rest : List String) (p : IgParentPage) (pfuel rfuel : Nat)
    (h1 : papi id "" = some p) (h2 : p.has_next_page = true)
    (h3 : papi id p.end_cursor = none) :
    igMainRecords papi rapi (pfuel + 2) rfuel (id :: rest)
      = p.nodes.flatMap (igEmitNode rapi id rfuel)
        ++ igMainRecords papi rapi (pfuel + 2) rfuel rest := by
  have hw : (fetch_comments papi rapi id (pfuel + 2) rfuel).records
      = p.nodes.flatMap (igEmitNode rapi id rfuel) := by
    show (fetchCommentsGo papi rapi id rfuel (pfuel + 1 + 1) "").records = _
    simp only [fetchCommentsGo, h1, h2, h3]
    simp
  rw [igMainRecords, List.flatMap_cons, hw, igMainRecords]

/-- C4 witness: the amended statement instantiated on the concrete
mid-walk-failure scenario. -/
theorem c4_amended_witness :
    papiC4 "v1" "" = some igPageC4
    ∧ igPageC4.has_next_page = true
    ∧ papiC4 "v1" igPageC4.end_cursor = none
    ∧ igMainRecords papiC4 rapiIgNone 7 5 ["v1", "v2"]
        = igPageC4.nodes.flatMap (igEmitNode rapiIgNone "v1" 5)
          ++ igMainRecords papiC4 rapiIgNone 7 5 ["v2"] :=
  ⟨rfl, rfl, rfl,
    c4_amended_partial_preservation papiC4 rapiIgNone "v1" ["v2"] igPageC4 5 5 rfl rfl rfl⟩

/-- C4 counterexample: on platform B, id `v1`'s page-2 fetch raises after
page 1 already yielded comment `a1`; the walker propagates the exception,
and the batch output holds only id `v2`'s record — `v1`'s collected
records are not preserved, contradicting the claim for platform B. -/
theorem c4_counterexample :
    tkRunFailed (tkGetAllComments (capiC4t "v1") (rapiTkEmptyOf "v1") 5 5) = true
    ∧ tkCommentIds (tkGetAllComments (capiC4t "v1") (rapiTkEmptyOf "v1") 5 5) = []
    ∧ (tkMainRecords capiC4t rapiTkEmptyOf 5 5 ["v1", "v2"]).map (fun r => r.comment_id)
        = ["b1"]
    ∧ (tkMainRecords capiC4t rapiTkEmptyOf 5 5 ["v1", "v2"]).map (fun r => r.aweme_id)
        = ["v2"] :=
  ⟨rfl, rfl, rfl, rfl⟩

/-- C5 (amended, platform A): the parent walk emits, for each traversed
node in order, the node's parent record followed immediately — before the
next parent record — by the records of exactly one reply walk for that
node (invoked exactly when its nested-reply count is nonzero); each such
reply record is tagged `is_reply = true`, carries the parent's id and the
originating post id, while the parent record has `is_reply = false` and
self-referencing ids.  Platform B's records carry the content id but no
is-reply field, and replies stay nested inside the parent record (see
the counterexample). -/
theorem c5_amended_flatten_shape
    (papi : String → String → Option IgParentPage)
    (rapi : String → String → Option IgReplyPage)
    (shortcode : String) (pfuel rfuel : Nat) (n : IgParentNode) :
    (fetch_comments papi rapi shortcode pfuel rfuel).records
        = (igPagesNodes papi shortcode pfuel "").flatMap (igEmitNode rapi shortcode rfuel)
    ∧ (fetch_comments papi rapi shortcode pfuel rfuel).reply_walks
        = ((igPagesNodes papi shortcode pfuel "").filter fun m =>
            0 < m.child_comment_count).map (·.id)
    ∧ (igEmitNode rapi shortcode rfuel n).head? = some (igParentRecord shortcode n)
    ∧ ((igEmitNode rapi shortcode rfuel n).tail.all fun r =>
        r.is_reply && (r.parent_comment_id == n.id) && (r.post_id == shortcode)) = true
    ∧ (igParentRecord shortcode n).is_reply = false
    ∧ (igParentRecord shortcode n).comment_id = n.id
    ∧ (igParentRecord shortcode n).post_id = shortcode := by
  refine ⟨?_, ?_, rfl, ?_, rfl, rfl, rfl⟩
  · exact fetchCommentsGo_records_eq papi rapi shortcode rfuel pfuel ""
  · exact fetchCommentsGo_reply_walks_eq papi rapi shortcode rfuel pfuel ""
  · simp only [igEmitNode, List.tail_cons]
    by_cases hc : 0 < n.child_comment_count
    · rw [if_pos hc]
      exact fetchRepliesGo_records_shape rapi shortcode n.id rfuel ""
    · rw [if_neg hc]; rfl

/-- C5 counterexample: a platform B record has no `is_reply` key at all,
and for a parent `P` with one reply `R1` the accumulated output holds a
single record whose `replies` field nests `R1` — the reply is not emitted
as a separate following record. -/
theorem c5_counterexample :
    tkFlatKeys.contains "is_reply" = false
    ∧ (tkMainRecords (fun _ => capiC5) (fun _ => rapiC5) 5 5 ["v1"]).map
        (fun r => r.comment_id) = ["P"]
    ∧ (tkMainRecords (fun _ => capiC5) (fun _ => rapiC5) 5 5 ["v1"]).map
        (fun r => r.replies.map (·.comment_id)) = [["R1"]] :=
  ⟨rfl, rfl, rfl⟩

/-- C6: both id sources return, for an existing file, the ordered trimmed
first-column values of every row after the unconditionally skipped first
row, excluding rows whose first cell is absent or trims empty; for a
missing file they return the empty sequence. -/
theorem c6_id_source (rows : List (List String)) :
    read_post_ids_from_csv (some rows) = idSourceSpec rows
    ∧ read_ids_from_csv (some rows) = idSourceSpec rows
    ∧ read_post_ids_from_csv none = []
    ∧ read_ids_from_csv none = [] := by
  refine ⟨?_, ?_, rfl, rfl⟩ <;>
  · show readIdsLoop (rows.drop 1) = idSourceSpec rows
    rw [idSourceSpec, readIdsLoop_eq_filterMap]

/-- C7 (amended): platform B returns cleanly, writing no file, both on
zero ids and on an empty accumulation; platform A returns cleanly with no
file on an empty accumulation, but on zero ids it terminates via
`sys.exit(1)` — an error exit, not a clean return. -/
theorem c7_amended_exit_behavior
    (papi : String → String → Option IgParentPage)
    (rapi : String → String → Option IgReplyPage)
    (capi : String → Nat → Except Unit TkRawPage)
    (trapi : String → String → Nat → Except Unit (List TkNode))
    (pfuel rfuel tpfuel trfuel : Nat) (ids tids : List String) (out : String)
    (h1 : ids ≠ [])
    (h2 : igMainRecords papi rapi pfuel rfuel ids = [])
    (h3 : tkMainRecords capi trapi tpfuel trfuel tids = []) :
    igMainOutcome papi rapi pfuel rfuel [] = .errorExit 1
    ∧ igMainOutcome papi rapi pfuel rfuel ids = .cleanReturn
    ∧ tkMainOutcome capi trapi tpfuel trfuel [] out = .cleanReturn
    ∧ tkMainOutcome capi trapi tpfuel trfuel tids out = .cleanReturn := by
  refine ⟨rfl, ?_, rfl, ?_⟩
  · have hne : ids.isEmpty = false := by
      cases ids
      · exact absurd rfl h1
      · rfl
    simp [igMainOutcome, hne, h2]
  · by_cases ht : tids.isEmpty <;> simp [tkMainOutcome, ht, h3]

/-- C7 witness: the amended statement instantiated on oracles that always
fail, so both accumulations are empty. -/
theorem c7_amended_witness :
    igMainRecords papiIgNone rapiIgNone 3 3 ["x"] = []
    ∧ tkMainRecords capiTkErr rapiTkEmptyOf 3 3 ["x"] = []
    ∧ igMainOutcome papiIgNone rapiIgNone 3 3 [] = .errorExit 1
    ∧ igMainOutcome papiIgNone rapiIgNone 3 3 ["x"] = .cleanReturn
    ∧ tkMainOutcome capiTkErr rapiTkEmptyOf 3 3 [] "out.csv" = .cleanReturn
    ∧ tkMainOutcome capiTkErr rapiTkEmptyOf 3 3 ["x"] "out.csv" = .cleanReturn := by
  have h := c7_amended_exit_behavior papiIgNone rapiIgNone capiTkErr rapiTkEmptyOf
    3 3 3 3 ["x"] ["x"] "out.csv" (by simp) rfl rfl
  exact ⟨rfl, rfl, h.1, h.2.1, h.2.2.1, h.2.2.2⟩

/-- C7 counterexample: with zero ids platform A's `main` terminates via
`sys.exit(1)`, which is not a clean return — refuting the claim as
stated for platform A. -/
theorem c7_counterexample :
    igMainOutcome papiIgNone rapiIgNone 3 3 [] = .errorExit 1
    ∧ igMainOutcome papiIgNone rapiIgNone 3 3 [] ≠ .cleanReturn := by
  refine ⟨rfl, ?_⟩
  intro h
  cases h

/-- C8 (amended): platform A's four credential strings (session id, user
id, CSRF token, machine id) are fixed literal constants of the program,
composed into one cookie string; `main` takes no invocation parameters,
so the credential string is the same for every invocation and omitting
credentials cannot cause a usage error. -/
theorem c8_amended_fixed_credentials (argv : List String) :
    igMainCookies argv
      = "sessionid=8900711295%3ACOeDeSGecWNZLK%3A9%3AAYf0g_IpxxhTmgjuUWX7Ne8gVjqUAi3KJJRehaD04Q; ds_user_id=8900711295; csrftoken=E5VPI5indmbps5COiHI7DI2LeH7vLA40; mid=aHSP6wALAAEGbmMHO65q6keKTGUT;"
    ∧ igMainCookies argv = cookies_str :=
  ⟨rfl, rfl⟩

/-- C8 counterexample: the credential string used by platform A's `main`
is identical whether credentials are passed on the invocation or omitted
entirely — they are fixed constants, not required parameters. -/
theorem c8_counterexample :
    igMainCookies []
      = igMainCookies ["--sessionid", "OTHER", "--ds-user-id", "X",
          "--csrftoken", "Y", "--mid", "Z"] :=
  rfl

/-- C9: both sinks are deterministic — writing the same accumulated
records to two different paths produces identical CSV content (same
header, same rows, same order), since the content depends only on the
records. -/
theorem c9_sink_deterministic (p1 p2 : String) (records : List Record) :
    (igWriteCsv p1 records).2 = (igWriteCsv p2 records).2
    ∧ (tkWriteCsv p1 records).2 = (tkWriteCsv p2 records).2 :=
  ⟨rfl, rfl⟩

/-- C10: every record emitted by platform A's parent walker with
`is_reply = false` has `comment_id` equal to `parent_comment_id`; hence,
whenever the emitted reply records' ids differ from their parents' ids,
`is_reply = false` holds exactly when `comment_id = parent_comment_id`. -/
theorem c10_parent_self_reference
    (papi : String → String → Option IgParentPage)
    (rapi : String → String → Option IgReplyPage)
    (shortcode : String) (pfuel rfuel : Nat) :
    ((fetch_comments papi rapi shortcode pfuel rfuel).records.all fun r =>
        r.is_reply || (r.comment_id == r.parent_comment_id)) = true
    ∧ (((fetch_comments papi rapi shortcode pfuel rfuel).records.all fun r =>
          !r.is_reply || !(r.comment_id == r.parent_comment_id)) = true →
        ((fetch_comments papi rapi shortcode pfuel rfuel).records.all fun r =>
          (!r.is_reply) == (r.comment_id == r.parent_comment_id)) = true) := by
  refine ⟨ig_records_parent_self papi rapi shortcode pfuel rfuel, fun h => ?_⟩
  have hu := ig_records_parent_self papi rapi shortcode pfuel rfuel
  rw [List.all_eq_true] at hu h ⊢
  intro r hr
  have h1 := hu r hr
  have h2 := h r hr
  cases hb : r.is_reply
  · rw [hb] at h1
    simp at h1
    simp [hb, h1]
  · rw [hb] at h2
    simp at h2
    simp [hb, h2]

/-- C10 witness: the equivalence instantiated on a concrete walk with one
parent and one distinct-id reply. -/
theorem c10_witness :
    ((fetch_comments papiC10 rapiC10 "P" 3 3).records.all fun r =>
      (!r.is_reply) == (r.comment_id == r.parent_comment_id)) = true :=
  (c10_parent_self_reference papiC10 rapiC10 "P" 3 3).2 (by decide)
